import Mathlib

/-!
Verification of the candle-kernels build pipeline.

This file gives a shallow embedding of the two source files of the
repository:

* `candle-kernels/build.rs` — the dual-path build script: format
  selection (`main`), compute-capability resolution
  (`get_compute_capability`, `detect_from_nvidia_smi`), the direct CUBIN
  compilation loop (`build_cubin_modules`, `compile_cubin`) and binding
  generation (`generate_cubin_rs`).
* `candle-kernels/src/lib.rs` — the runtime module registry: the `Id`
  catalog, `ALL_IDS`, `module_index`, `ModuleData`, `Module` with its
  `as_bytes` and `ptx` accessors, and the `mdl!` constant expansions.

Effects are made explicit: environment variables become `Option String`
inputs, the filesystem becomes a list of existing paths, subprocess
invocations become recorded events whose results are oracle inputs, and
panics become `Option String` / `Except` error values carrying the panic
message.  Rust string primitives (`to_lowercase`, `to_uppercase`,
`trim`, `split_whitespace`, `replace`, `as_bytes`) are modelled by
char-list functions below so that everything evaluates by `decide`.
-/

namespace CandleKernels

/-! ### Models of the Rust string primitives used by the sources -/

/-- Model of Rust `str::to_lowercase` (the values that matter here are
ASCII, where `Char.toLower` agrees with the Rust mapping). -/
def to_lowercase (s : String) : String := ⟨s.data.map Char.toLower⟩

/-- Model of Rust `str::to_uppercase` on the ASCII kernel names. -/
def to_uppercase (s : String) : String := ⟨s.data.map Char.toUpper⟩

/-- Model of Rust `str::trim`: drop whitespace from both ends. -/
def trim (s : String) : String :=
  ⟨((s.data.dropWhile Char.isWhitespace).reverse.dropWhile Char.isWhitespace).reverse⟩

/-- Model of Rust `str::replace('.', "")`: removing every `'.'` char. -/
def strip_dots (s : String) : String := ⟨s.data.filter (fun c => c != '.')⟩

/-- Model of Rust `str::split_whitespace` (no empty tokens). -/
def split_whitespace_aux : List Char → List Char → List String
  | [], acc => if acc.isEmpty then [] else [⟨acc.reverse⟩]
  | c :: rest, acc =>
    if c.isWhitespace then
      if acc.isEmpty then split_whitespace_aux rest []
      else ⟨acc.reverse⟩ :: split_whitespace_aux rest []
    else split_whitespace_aux rest (c :: acc)

/-- Model of Rust `str::split_whitespace` collected into a list. -/
def split_whitespace (s : String) : List String := split_whitespace_aux s.data []

/-- UTF-8 encoding of one scalar value, as byte values. -/
def utf8_char_bytes (c : Char) : List Nat :=
  let n := c.toNat
  if n < 0x80 then [n]
  else if n < 0x800 then [0xC0 ||| (n >>> 6), 0x80 ||| (n &&& 0x3F)]
  else if n < 0x10000 then
    [0xE0 ||| (n >>> 12), 0x80 ||| ((n >>> 6) &&& 0x3F), 0x80 ||| (n &&& 0x3F)]
  else
    [0xF0 ||| (n >>> 18), 0x80 ||| ((n >>> 12) &&& 0x3F), 0x80 ||| ((n >>> 6) &&& 0x3F),
      0x80 ||| (n &&& 0x3F)]

/-- Model of Rust `str::as_bytes`: the UTF-8 byte encoding of a string. -/
def str_bytes (s : String) : List Nat := s.data.flatMap utf8_char_bytes

/-! ### `lib.rs`: the runtime module registry -/

/-- `lib.rs` — `pub enum Id`, the fixed catalog of module identifiers,
in declaration order.  (`Sort'` stands for the source variant `Sort`,
which is a reserved word in Lean.) -/
inductive Id where
  | Affine
  | Binary
  | Cast
  | Conv
  | Fill
  | Indexing
  | Quantized
  | Reduce
  | Sort'
  | Ternary
  | Unary
deriving DecidableEq, Repr

/-- The `repr(u32)` discriminant of each `Id` variant: consecutive
values in declaration order, as Rust assigns them. -/
def Id.toU32 : Id → Nat
  | .Affine => 0
  | .Binary => 1
  | .Cast => 2
  | .Conv => 3
  | .Fill => 4
  | .Indexing => 5
  | .Quantized => 6
  | .Reduce => 7
  | .Sort' => 8
  | .Ternary => 9
  | .Unary => 10

/-- `lib.rs` — `pub const ALL_IDS: [Id; 11]`. -/
def ALL_IDS : List Id :=
  [Id.Affine, Id.Binary, Id.Cast, Id.Conv, Id.Fill, Id.Indexing,
    Id.Quantized, Id.Reduce, Id.Sort', Id.Ternary, Id.Unary]

/-- The `while` loop of `const fn module_index`: scan `ALL_IDS` from
index `i` upward, comparing `u32` discriminants; `none` models the
`panic!("id not found")` fall-through. -/
def module_index_go (target : Nat) : List Id → Nat → Option Nat
  | [], _ => none
  | a :: rest, i => if a.toU32 = target then some i else module_index_go target rest (i + 1)

/-- `lib.rs` — `const fn module_index(id: Id) -> usize`. -/
def module_index (id : Id) : Option Nat := module_index_go id.toU32 ALL_IDS 0

/-- `lib.rs` — `pub enum ModuleData`: PTX text or CUBIN bytes. -/
inductive ModuleData where
  | Ptx (s : String)
  | Cubin (b : List Nat)
deriving DecidableEq, Repr

/-- `lib.rs` — `pub struct Module`: an index paired with payload data. -/
structure Module where
  index : Nat
  data : ModuleData
deriving DecidableEq, Repr

/-- `lib.rs` — `Module::as_bytes`: uniform byte view of either payload
shape. -/
def Module.as_bytes (m : Module) : List Nat :=
  match m.data with
  | ModuleData.Ptx s => str_bytes s
  | ModuleData.Cubin b => b

/-- The panic message of `Module::ptx` on a CUBIN payload. -/
def cubin_ptx_panic_msg : String :=
  "Module contains CUBIN data, not PTX.\nUse Module::as_bytes() instead for compatibility with both formats."

/-- `lib.rs` — `Module::ptx`: returns the PTX text, or panics (modelled
as `Except.error` carrying the panic message) on a CUBIN payload. -/
def Module.ptx (m : Module) : Except String String :=
  match m.data with
  | ModuleData.Ptx s => Except.ok s
  | ModuleData.Cubin _ => Except.error cubin_ptx_panic_msg

/-- Expansion of the `mdl!` macro under the default (PTX) configuration:
`Module { index: module_index(Id::$id), data: ModuleData::Ptx(ptx::$cst) }`.
The payload is the externally included `ptx::$cst` constant; `none`
models the compile-time panic of `module_index`. -/
def mdl_ptx (id : Id) (payload : String) : Option Module :=
  (module_index id).map fun i => ⟨i, ModuleData.Ptx payload⟩

/-- Expansion of the `mdl!` macro under `candle_cuda_cubin`:
`Module { index: module_index(Id::$id), data: ModuleData::Cubin(cubin::$cst) }`. -/
def mdl_cubin (id : Id) (payload : List Nat) : Option Module :=
  (module_index id).map fun i => ⟨i, ModuleData.Cubin payload⟩

namespace PtxBuild

/-- `mdl!(AFFINE, Affine)` under the PTX configuration. -/
def AFFINE (p : String) : Option Module := mdl_ptx Id.Affine p

/-- `mdl!(BINARY, Binary)` under the PTX configuration. -/
def BINARY (p : String) : Option Module := mdl_ptx Id.Binary p

/-- `mdl!(CAST, Cast)` under the PTX configuration. -/
def CAST (p : String) : Option Module := mdl_ptx Id.Cast p

/-- `mdl!(CONV, Conv)` under the PTX configuration. -/
def CONV (p : String) : Option Module := mdl_ptx Id.Conv p

/-- `mdl!(FILL, Fill)` under the PTX configuration. -/
def FILL (p : String) : Option Module := mdl_ptx Id.Fill p

/-- `mdl!(INDEXING, Indexing)` under the PTX configuration. -/
def INDEXING (p : String) : Option Module := mdl_ptx Id.Indexing p

/-- `mdl!(QUANTIZED, Quantized)` under the PTX configuration. -/
def QUANTIZED (p : String) : Option Module := mdl_ptx Id.Quantized p

/-- `mdl!(REDUCE, Reduce)` under the PTX configuration. -/
def REDUCE (p : String) : Option Module := mdl_ptx Id.Reduce p

/-- `mdl!(SORT, Sort)` under the PTX configuration. -/
def SORT (p : String) : Option Module := mdl_ptx Id.Sort' p

/-- `mdl!(TERNARY, Ternary)` under the PTX configuration. -/
def TERNARY (p : String) : Option Module := mdl_ptx Id.Ternary p

/-- `mdl!(UNARY, Unary)` under the PTX configuration. -/
def UNARY (p : String) : Option Module := mdl_ptx Id.Unary p

end PtxBuild

namespace CubinBuild

/-- `mdl!(AFFINE, Affine)` under the CUBIN configuration. -/
def AFFINE (p : List Nat) : Option Module := mdl_cubin Id.Affine p

/-- `mdl!(BINARY, Binary)` under the CUBIN configuration. -/
def BINARY (p : List Nat) : Option Module := mdl_cubin Id.Binary p

/-- `mdl!(CAST, Cast)` under the CUBIN configuration. -/
def CAST (p : List Nat) : Option Module := mdl_cubin Id.Cast p

/-- `mdl!(CONV, Conv)` under the CUBIN configuration. -/
def CONV (p : List Nat) : Option Module := mdl_cubin Id.Conv p

/-- `mdl!(FILL, Fill)` under the CUBIN configuration. -/
def FILL (p : List Nat) : Option Module := mdl_cubin Id.Fill p

/-- `mdl!(INDEXING, Indexing)` under the CUBIN configuration. -/
def INDEXING (p : List Nat) : Option Module := mdl_cubin Id.Indexing p

/-- `mdl!(QUANTIZED, Quantized)` under the CUBIN configuration. -/
def QUANTIZED (p : List Nat) : Option Module := mdl_cubin Id.Quantized p

/-- `mdl!(REDUCE, Reduce)` under the CUBIN configuration. -/
def REDUCE (p : List Nat) : Option Module := mdl_cubin Id.Reduce p

/-- `mdl!(SORT, Sort)` under the CUBIN configuration. -/
def SORT (p : List Nat) : Option Module := mdl_cubin Id.Sort' p

/-- `mdl!(TERNARY, Ternary)` under the CUBIN configuration. -/
def TERNARY (p : List Nat) : Option Module := mdl_cubin Id.Ternary p

/-- `mdl!(UNARY, Unary)` under the CUBIN configuration. -/
def UNARY (p : List Nat) : Option Module := mdl_cubin Id.Unary p

end CubinBuild

/-! ### `build.rs`: the dual-path build script

Environment variables, the filesystem and subprocess results are
explicit inputs (`Env`); subprocess invocations are recorded as
`Event`s; a `panic!` is an error value carrying the panic message. -/

/-- The two compilation strategies of `main`'s `match`. -/
inductive Strategy where
  | ptx
  | cubin
deriving DecidableEq, Repr

/-- A subprocess invocation performed by the build script. -/
inductive Event where
  /-- `nvidia-smi --query-gpu=compute_cap --format=csv,noheader`. -/
  | nvidia_smi
  /-- An `nvcc` invocation from `compile_cubin` for one kernel source,
  with its destination file and full argument list. -/
  | nvcc (src dst : String) (args : List String)
  /-- The delegate `bindgen_cuda` build (which drives the toolchain
  itself, outside this code). -/
  | bindgen_build_ptx
deriving DecidableEq, Repr

/-- The build environment: the three environment variables read by
`build.rs`, the outcome of the `nvidia-smi` probe (`none` = the command
could not be run, otherwise exit-status success and captured stdout),
the outcome of running `nvcc` on a given source (`none` = nvcc could
not be executed, otherwise success flag, stdout, stderr), the set of
existing files, and whether the `bindgen_cuda` delegate succeeds. -/
structure Env where
  candle_cuda_module_format : Option String
  cuda_compute_cap : Option String
  cuda_nvcc_flags : Option String
  smi : Option (Bool × String)
  nvcc : String → Option (Bool × String × String)
  fs : List String
  bindgen_ok : Bool

/-- Observable result of one run of the build script: which strategy
body was entered (if any), the subprocess invocations in order, the
panic message if the build aborted, and the lines written to
`cubin.rs` when the CUBIN path completed. -/
structure RunResult where
  strategy : Option Strategy
  events : List Event
  panic : Option String
  generated : Option (List String)
deriving DecidableEq, Repr

/-- `build.rs` — the panic message of `main` for an invalid
`CANDLE_CUDA_MODULE_FORMAT` value. -/
def invalid_format_msg (other : String) : String :=
  "Invalid CANDLE_CUDA_MODULE_FORMAT: '" ++ other ++ "'. Valid values: 'ptx' or 'cubin'"

/-- `build.rs` — the `match module_format.as_str()` in `main`. -/
def select_strategy (module_format : String) : Except String Strategy :=
  if module_format = "ptx" then Except.ok Strategy.ptx
  else if module_format = "cubin" then Except.ok Strategy.cubin
  else Except.error (invalid_format_msg module_format)

/-- `build.rs` — the fixed `kernels` array of `build_cubin_modules`,
matching the `Id` enum of `lib.rs`. -/
def kernels : List String :=
  ["affine", "binary", "cast", "conv", "fill", "indexing", "quantized",
    "reduce", "sort", "ternary", "unary"]

/-- `format!("src/{}.cu", kernel_name)`: expected path of a kernel
source file. -/
def src_path (kernel_name : String) : String := "src/" ++ kernel_name ++ ".cu"

/-- Rust `{:?}` debug formatting of a `&[&str]` slice, as used in the
missing-kernel panic. -/
def debug_fmt_strs (l : List String) : String :=
  "[" ++ String.intercalate ", " (l.map (fun s => "\"" ++ s ++ "\"")) ++ "]"

/-- `build.rs` — the panic message of `build_cubin_modules` when a
kernel source file is missing: it names the missing path and lists the
full expected catalog. -/
def missing_kernel_msg (src : String) (expected : List String) : String :=
  "Kernel source file not found: " ++ src ++ "\nExpected kernels: " ++
    debug_fmt_strs expected

/-- `build.rs` — the argument list `compile_cubin` passes to `nvcc`:
the fixed flag set, then the whitespace-split `CUDA_NVCC_FLAGS`. -/
def nvcc_args (src dst compute_cap : String) (cuda_nvcc_flags : Option String) :
    List String :=
  ["--cubin", "--gpu-architecture=sm_" ++ compute_cap, "-O3", "--use_fast_math",
    "--std=c++17", "--default-stream", "per-thread", "-I", "src", "-o", dst, src] ++
  (match cuda_nvcc_flags with
   | some flags => split_whitespace flags
   | none => [])

/-- `build.rs` — the `expect` message when `nvcc` cannot be executed. -/
def nvcc_spawn_fail_msg : String :=
  "Failed to execute nvcc.\nEnsure CUDA toolkit (or PPU toolkit) is installed and nvcc is in PATH."

/-- Rust `{:?}` debug formatting of a `Command`: the program followed by
each argument, every token quoted. -/
def debug_fmt_cmd (program : String) (args : List String) : String :=
  String.intercalate " " ((program :: args).map (fun a => "\"" ++ a ++ "\""))

/-- `build.rs` — the panic message of `compile_cubin` when `nvcc` exits
with a non-zero status: the command line and both output streams. -/
def nvcc_fail_msg (src : String) (args : List String) (stdout stderr : String) : String :=
  "nvcc compilation failed for " ++ "\"" ++ src ++ "\"" ++ "\n\nCommand: " ++
    debug_fmt_cmd "nvcc" args ++ "\n\nstdout:\n" ++ stdout ++ "\n\nstderr:\n" ++ stderr

/-- `build.rs` — `compile_cubin`: runs `nvcc` on one source file; the
subprocess outcome comes from the environment oracle.  Returns `none`
on success and `some msg` for a panic with message `msg`. -/
def compile_cubin (result : Option (Bool × String × String))
    (src dst compute_cap : String) (cuda_nvcc_flags : Option String) : Option String :=
  match result with
  | none => some nvcc_spawn_fail_msg
  | some (success, stdout, stderr) =>
    if success then none
    else some (nvcc_fail_msg src (nvcc_args src dst compute_cap cuda_nvcc_flags) stdout stderr)

/-- `build.rs` — `detect_from_nvidia_smi`: run the probe, trim its whole
stdout, strip `'.'` separators, and accept only a non-empty all-digit
result.  `Err(())` is `Except.error ()`. -/
def detect_from_nvidia_smi (smi : Option (Bool × String)) : Except Unit String :=
  match smi with
  | none => Except.error ()
  | some (success, stdout) =>
    if success then
      let cap := strip_dots (trim stdout)
      if !cap.data.isEmpty && cap.data.all Char.isDigit then Except.ok cap
      else Except.error ()
    else Except.error ()

/-- `build.rs` — the panic message of `get_compute_capability` when no
capability can be determined. -/
def capability_panic_msg : String :=
  "Cannot detect CUDA compute capability for CUBIN build.\n\nPlease set CUDA_COMPUTE_CAP environment variable.\n\nExamples:\n- CUDA_COMPUTE_CAP=75 for Turing (RTX 20xx, T4)\n- CUDA_COMPUTE_CAP=80 for Ampere (A100, RTX 30xx)\n- CUDA_COMPUTE_CAP=86 for Ampere (RTX 30xx mobile)\n- CUDA_COMPUTE_CAP=89 for Ada Lovelace (RTX 40xx)\n- CUDA_COMPUTE_CAP=90 for Hopper (H100)\n\nFind your GPU's compute capability at:\nhttps://developer.nvidia.com/cuda-gpus\n\nFor PPU or other devices, consult your device documentation."

/-- `build.rs` — `get_compute_capability`: the environment override wins
verbatim; otherwise the `nvidia-smi` probe; otherwise a fatal error. -/
def get_compute_capability (cuda_compute_cap : Option String)
    (smi : Option (Bool × String)) : Except String String :=
  match cuda_compute_cap with
  | some cap => Except.ok cap
  | none =>
    match detect_from_nvidia_smi smi with
    | Except.ok cap => Except.ok cap
    | Except.error _ => Except.error capability_panic_msg

/-- The subprocess events of `get_compute_capability`: the probe runs
exactly when no override is set. -/
def capability_events (cuda_compute_cap : Option String) : List Event :=
  match cuda_compute_cap with
  | some _ => []
  | none => [Event.nvidia_smi]

/-- `build.rs` — one line written by `generate_cubin_rs` for one kernel:
an upper-cased constant name with a compile-time embedding of that
kernel's `.cubin` output file. -/
def cubin_rs_line (kernel_name : String) : String :=
  "pub const " ++ to_uppercase kernel_name ++
    ": &[u8] = include_bytes!(concat!(env!(\"OUT_DIR\"), \"/" ++ kernel_name ++
    ".cubin\"));\n"

/-- `build.rs` — `generate_cubin_rs`: the lines written to `cubin.rs`,
one per kernel, in catalog order. -/
def generate_cubin_rs (ks : List String) : List String := ks.map cubin_rs_line

/-- The per-kernel `for` loop of `build_cubin_modules`: `expected` is
the full `kernels` array referenced by the missing-file panic;
`remaining` is the part of it still to process.  Returns the `nvcc`
events in order and the panic message, if any. -/
def cubin_loop (env : Env) (out_dir compute_cap : String) (expected : List String) :
    List String → List Event × Option String
  | [] => ([], none)
  | kernel_name :: rest =>
    let src := src_path kernel_name
    let dst := out_dir ++ "/" ++ kernel_name ++ ".cubin"
    if env.fs.contains src then
      let ev := Event.nvcc src dst (nvcc_args src dst compute_cap env.cuda_nvcc_flags)
      match compile_cubin (env.nvcc src) src dst compute_cap env.cuda_nvcc_flags with
      | some msg => ([ev], some msg)
      | none =>
        let r := cubin_loop env out_dir compute_cap expected rest
        (ev :: r.1, r.2)
    else ([], some (missing_kernel_msg src expected))

/-- `build.rs` — `build_ptx_modules`: delegates the whole build to
`bindgen_cuda`; failure of the delegate is fatal. -/
def build_ptx_modules (env : Env) : RunResult :=
  { strategy := some Strategy.ptx,
    events := [Event.bindgen_build_ptx],
    panic := if env.bindgen_ok then none
             else some "Failed to build PTX modules with bindgen_cuda",
    generated := none }

/-- `build.rs` — `build_cubin_modules`: resolve the compute capability,
compile every kernel of the fixed catalog in order, then generate
`cubin.rs`. -/
def build_cubin_modules (env : Env) (out_dir : String) : RunResult :=
  match get_compute_capability env.cuda_compute_cap env.smi with
  | Except.error msg =>
    { strategy := some Strategy.cubin,
      events := capability_events env.cuda_compute_cap,
      panic := some msg,
      generated := none }
  | Except.ok compute_cap =>
    let r := cubin_loop env out_dir compute_cap kernels kernels
    { strategy := some Strategy.cubin,
      events := capability_events env.cuda_compute_cap ++ r.1,
      panic := r.2,
      generated := if r.2.isNone then some (generate_cubin_rs kernels) else none }

/-- Dispatch of `main`'s `match` arms once a strategy is selected. -/
def run_strategy (env : Env) (out_dir : String) : Strategy → RunResult
  | Strategy.ptx => build_ptx_modules env
  | Strategy.cubin => build_cubin_modules env out_dir

/-- `build.rs` — `main`: read `CANDLE_CUDA_MODULE_FORMAT` (default
`"ptx"`), lower-case it, and run the selected strategy; any other value
panics before anything else happens. -/
def main_run (env : Env) (out_dir : String) : RunResult :=
  let module_format := to_lowercase (env.candle_cuda_module_format.getD "ptx")
  match select_strategy module_format with
  | Except.ok s => run_strategy env out_dir s
  | Except.error msg =>
    { strategy := none, events := [], panic := some msg, generated := none }

/-! ### Claims about the runtime module registry -/

/-- Claim C2: every module identifier's derived index equals its
zero-based position in `ALL_IDS` declaration order (consecutive from 0),
and every `mdl!`-generated module handle constant carries the index of
its own identifier, under both the PTX and the CUBIN configuration. -/
theorem claim_C2 :
    (∀ k : Fin ALL_IDS.length, module_index (ALL_IDS.get k) = some k.val) ∧
    (∀ s, PtxBuild.AFFINE s = some ⟨0, ModuleData.Ptx s⟩ ∧
      PtxBuild.BINARY s = some ⟨1, ModuleData.Ptx s⟩ ∧
      PtxBuild.CAST s = some ⟨2, ModuleData.Ptx s⟩ ∧
      PtxBuild.CONV s = some ⟨3, ModuleData.Ptx s⟩ ∧
      PtxBuild.FILL s = some ⟨4, ModuleData.Ptx s⟩ ∧
      PtxBuild.INDEXING s = some ⟨5, ModuleData.Ptx s⟩ ∧
      PtxBuild.QUANTIZED s = some ⟨6, ModuleData.Ptx s⟩ ∧
      PtxBuild.REDUCE s = some ⟨7, ModuleData.Ptx s⟩ ∧
      PtxBuild.SORT s = some ⟨8, ModuleData.Ptx s⟩ ∧
      PtxBuild.TERNARY s = some ⟨9, ModuleData.Ptx s⟩ ∧
      PtxBuild.UNARY s = some ⟨10, ModuleData.Ptx s⟩) ∧
    (∀ b, CubinBuild.AFFINE b = some ⟨0, ModuleData.Cubin b⟩ ∧
      CubinBuild.BINARY b = some ⟨1, ModuleData.Cubin b⟩ ∧
      CubinBuild.CAST b = some ⟨2, ModuleData.Cubin b⟩ ∧
      CubinBuild.CONV b = some ⟨3, ModuleData.Cubin b⟩ ∧
      CubinBuild.FILL b = some ⟨4, ModuleData.Cubin b⟩ ∧
      CubinBuild.INDEXING b = some ⟨5, ModuleData.Cubin b⟩ ∧
      CubinBuild.QUANTIZED b = some ⟨6, ModuleData.Cubin b⟩ ∧
      CubinBuild.REDUCE b = some ⟨7, ModuleData.Cubin b⟩ ∧
      CubinBuild.SORT b = some ⟨8, ModuleData.Cubin b⟩ ∧
      CubinBuild.TERNARY b = some ⟨9, ModuleData.Cubin b⟩ ∧
      CubinBuild.UNARY b = some ⟨10, ModuleData.Cubin b⟩) :=
  ⟨by decide,
    fun _ => ⟨rfl, rfl, rfl, rfl, rfl, rfl, rfl, rfl, rfl, rfl, rfl⟩,
    fun _ => ⟨rfl, rfl, rfl, rfl, rfl, rfl, rfl, rfl, rfl, rfl, rfl⟩⟩

/-- Claim C3: the uniform byte-view accessor `Module::as_bytes` returns
exactly the stored byte slice for a CUBIN payload, and exactly the byte
encoding of the stored text for a PTX payload. -/
theorem claim_C3 (m : Module) :
    (∀ b, m.data = ModuleData.Cubin b → m.as_bytes = b) ∧
    (∀ s, m.data = ModuleData.Ptx s → m.as_bytes = str_bytes s) := by
  obtain ⟨i, d⟩ := m
  constructor
  · intro b hb
    cases hb
    rfl
  · intro s hs
    cases hs
    rfl

/-- Witness for C3 at concrete handles: a CUBIN handle yields its
stored bytes, a PTX handle the UTF-8 bytes of its text. -/
theorem claim_C3_witness :
    Module.as_bytes ⟨0, ModuleData.Cubin [1, 2, 3]⟩ = [1, 2, 3] ∧
    Module.as_bytes ⟨0, ModuleData.Ptx "ab"⟩ = [97, 98] :=
  ⟨(claim_C3 ⟨0, ModuleData.Cubin [1, 2, 3]⟩).1 [1, 2, 3] rfl,
    ((claim_C3 ⟨0, ModuleData.Ptx "ab"⟩).2 "ab" rfl).trans (by decide)⟩

/-- Claim C4: `Module::ptx` on a CUBIN payload always signals the fatal
usage error (never any `ok` value), and on a PTX payload returns the
stored text. -/
theorem claim_C4 (m : Module) :
    (∀ b, m.data = ModuleData.Cubin b →
      m.ptx = Except.error cubin_ptx_panic_msg ∧ ∀ s, m.ptx ≠ Except.ok s) ∧
    (∀ s, m.data = ModuleData.Ptx s → m.ptx = Except.ok s) := by
  obtain ⟨i, d⟩ := m
  constructor
  · intro b hb
    cases hb
    exact ⟨rfl, fun s h => Except.noConfusion h⟩
  · intro s hs
    cases hs
    rfl

/-- Witness for C4 at concrete handles: a CUBIN handle signals the
usage error, a PTX handle returns its text. -/
theorem claim_C4_witness :
    Module.ptx ⟨0, ModuleData.Cubin [1]⟩ = Except.error cubin_ptx_panic_msg ∧
    Module.ptx ⟨0, ModuleData.Ptx "x"⟩ = Except.ok "x" :=
  ⟨((claim_C4 ⟨0, ModuleData.Cubin [1]⟩).1 [1] rfl).1,
    (claim_C4 ⟨0, ModuleData.Ptx "x"⟩).2 "x" rfl⟩

/-! ### Claims about capability resolution -/

/-- Claim C5: an explicit `CUDA_COMPUTE_CAP` override always wins over
hardware probing and is returned verbatim, whatever the probe would
say; in particular override "86" with probe-able "8.0" yields "86". -/
theorem claim_C5 :
    (∀ (cap : String) (smi : Option (Bool × String)),
      get_compute_capability (some cap) smi = Except.ok cap) ∧
    get_compute_capability (some "86") (some (true, "8.0")) = Except.ok "86" :=
  ⟨fun _ _ => rfl, rfl⟩

/-- Helper: the probe parser rejects any output whose dot-stripped,
trimmed form is not all decimal digits. -/
theorem detect_rejects_nondigit (success : Bool) (stdout : String)
    (hall : (strip_dots (trim stdout)).data.all Char.isDigit = false) :
    detect_from_nvidia_smi (some (success, stdout)) = Except.error () := by
  cases success
  · rfl
  · show (if !(strip_dots (trim stdout)).data.isEmpty &&
        (strip_dots (trim stdout)).data.all Char.isDigit then
        Except.ok (strip_dots (trim stdout)) else Except.error ()) = Except.error ()
    rw [hall, Bool.and_false]
    rfl

/-- Claim C6: the probe parser strips dots and accepts only a non-empty
all-digit result: "8.6" resolves to "86"; any output whose stripped
form has a non-digit character is rejected as probe failure. -/
theorem claim_C6 :
    detect_from_nvidia_smi (some (true, "8.6")) = Except.ok "86" ∧
    (∀ stdout cap, detect_from_nvidia_smi (some (true, stdout)) = Except.ok cap →
      cap = strip_dots (trim stdout) ∧ cap.data.isEmpty = false ∧
        cap.data.all Char.isDigit = true) ∧
    (∀ (success : Bool) (stdout : String),
      (strip_dots (trim stdout)).data.all Char.isDigit = false →
      detect_from_nvidia_smi (some (success, stdout)) = Except.error ()) := by
  refine ⟨rfl, ?_, ?_⟩
  · intro stdout cap h
    by_cases hc : (!(strip_dots (trim stdout)).data.isEmpty &&
        (strip_dots (trim stdout)).data.all Char.isDigit) = true
    · have hcap : cap = strip_dots (trim stdout) := by
        have : detect_from_nvidia_smi (some (true, stdout)) =
            Except.ok (strip_dots (trim stdout)) := by
          show (if !(strip_dots (trim stdout)).data.isEmpty &&
              (strip_dots (trim stdout)).data.all Char.isDigit then
              Except.ok (strip_dots (trim stdout)) else Except.error ()) =
            Except.ok (strip_dots (trim stdout))
          rw [hc]
          rfl
        rw [this] at h
        exact (Except.ok.injEq _ _ ▸ h).symm
      refine ⟨hcap, ?_, ?_⟩
      · rw [hcap]
        cases hb : (strip_dots (trim stdout)).data.isEmpty
        · rfl
        · rw [hb] at hc
          exact absurd hc (by simp)
      · rw [hcap]
        cases hd : (strip_dots (trim stdout)).data.all Char.isDigit
        · rw [hd] at hc
          exact absurd hc (by simp)
        · rfl
    · exfalso
      have : detect_from_nvidia_smi (some (true, stdout)) = Except.error () := by
        show (if !(strip_dots (trim stdout)).data.isEmpty &&
            (strip_dots (trim stdout)).data.all Char.isDigit then
            Except.ok (strip_dots (trim stdout)) else Except.error ()) = Except.error ()
        rw [Bool.eq_false_iff.mpr hc]
        rfl
      rw [this] at h
      exact Except.noConfusion h
  · exact detect_rejects_nondigit

/-- Witness for C6: the non-numeric probe output "N/A" is rejected. -/
theorem claim_C6_witness :
    detect_from_nvidia_smi (some (true, "N/A")) = Except.error () :=
  claim_C6.2.2 true "N/A" (by decide)

/-- Counterexample to claim C7 as stated: the multi-line probe output
"8.0\n8.6\n" does not resolve to "80"; the whole output is parsed, the
embedded newline survives dot-stripping, and the probe is rejected. -/
theorem claim_C7_counterexample :
    detect_from_nvidia_smi (some (true, "8.0\n8.6\n")) = Except.error () ∧
    detect_from_nvidia_smi (some (true, "8.0\n8.6\n")) ≠ Except.ok "80" := by
  constructor
  · rfl
  · intro h
    exact Except.noConfusion ((rfl :
      detect_from_nvidia_smi (some (true, "8.0\n8.6\n")) = Except.error ()).symm.trans h)

/-- Claim C7 as amended: the parser reads the probe's whole output, not
only its first line; whenever the trimmed output still contains a
newline (i.e. it has multiple non-blank lines), the probe is rejected
and treated as failure. -/
theorem claim_C7 (success : Bool) (stdout : String)
    (h : '\n' ∈ (trim stdout).data) :
    detect_from_nvidia_smi (some (success, stdout)) = Except.error () := by
  have hmem : '\n' ∈ (strip_dots (trim stdout)).data := by
    show '\n' ∈ (trim stdout).data.filter (fun c => c != '.')
    exact List.mem_filter.mpr ⟨h, by decide⟩
  have hall : (strip_dots (trim stdout)).data.all Char.isDigit = false := by
    cases hd : (strip_dots (trim stdout)).data.all Char.isDigit
    · rfl
    · exact absurd (List.all_eq_true.mp hd _ hmem) (by decide)
  exact detect_rejects_nondigit success stdout hall

/-- Witness for the amended C7: a two-line probe output is rejected. -/
theorem claim_C7_witness :
    detect_from_nvidia_smi (some (true, "7.5\n8.0")) = Except.error () :=
  claim_C7 true "7.5\n8.0" (by decide)

/-! ### Claims about format selection (`main`) -/

/-- Helper: `select_strategy` on a value that is neither "ptx" nor
"cubin" is the fatal configuration error. -/
theorem select_strategy_err (v : String) (hp : v ≠ "ptx") (hc : v ≠ "cubin") :
    select_strategy v = Except.error (invalid_format_msg v) := by
  unfold select_strategy
  rw [if_neg hp, if_neg hc]

/-- Helper: whichever way capability resolution goes, the CUBIN
strategy body is the one entered by `build_cubin_modules`. -/
theorem build_cubin_strategy (env : Env) (out_dir : String) :
    (build_cubin_modules env out_dir).strategy = some Strategy.cubin := by
  unfold build_cubin_modules
  cases get_compute_capability env.cuda_compute_cap env.smi <;> rfl

/-- Claim C1: with the format selector absent the PTX strategy runs;
a value lower-casing to "ptx" or "cubin" runs exactly that strategy;
any other value aborts the build fatally with no subprocess invoked and
no strategy entered, with an error message naming the offending
(case-normalized) value and the valid set. -/
theorem claim_C1 (env : Env) (out_dir : String) :
    (env.candle_cuda_module_format = none →
      (main_run env out_dir).strategy = some Strategy.ptx) ∧
    (∀ v, env.candle_cuda_module_format = some v → to_lowercase v = "ptx" →
      (main_run env out_dir).strategy = some Strategy.ptx) ∧
    (∀ v, env.candle_cuda_module_format = some v → to_lowercase v = "cubin" →
      (main_run env out_dir).strategy = some Strategy.cubin) ∧
    (∀ v, env.candle_cuda_module_format = some v →
      to_lowercase v ≠ "ptx" → to_lowercase v ≠ "cubin" →
      main_run env out_dir =
        { strategy := none, events := [],
          panic := some (invalid_format_msg (to_lowercase v)), generated := none }) ∧
    (∀ x, invalid_format_msg x =
      "Invalid CANDLE_CUDA_MODULE_FORMAT: '" ++ x ++
        "'. Valid values: 'ptx' or 'cubin'") := by
  refine ⟨?_, ?_, ?_, ?_, fun x => rfl⟩
  · intro h
    unfold main_run
    rw [h]
    rfl
  · intro v hv hl
    unfold main_run
    rw [hv, Option.getD_some, hl]
    rfl
  · intro v hv hl
    unfold main_run
    rw [hv, Option.getD_some, hl]
    exact build_cubin_strategy env out_dir
  · intro v hv hp hc
    unfold main_run
    rw [hv, Option.getD_some]
    show (match select_strategy (to_lowercase v) with
      | Except.ok s => run_strategy env out_dir s
      | Except.error msg =>
        { strategy := none, events := [], panic := some msg, generated := none }) =
      { strategy := none, events := [],
        panic := some (invalid_format_msg (to_lowercase v)), generated := none }
    rw [select_strategy_err (to_lowercase v) hp hc]

/-- Witness for C1: the invalid selector value "Foo" aborts the build
with no strategy, no subprocess events, and the configuration-error
message. -/
theorem claim_C1_witness :
    main_run
      { candle_cuda_module_format := some "Foo", cuda_compute_cap := none,
        cuda_nvcc_flags := none, smi := none, nvcc := fun _ => none,
        fs := [], bindgen_ok := true } "out" =
      { strategy := none, events := [],
        panic := some "Invalid CANDLE_CUDA_MODULE_FORMAT: 'foo'. Valid values: 'ptx' or 'cubin'",
        generated := none } := by
  have h := (claim_C1
    { candle_cuda_module_format := some "Foo", cuda_compute_cap := none,
      cuda_nvcc_flags := none, smi := none, nvcc := fun _ => none,
      fs := [], bindgen_ok := true } "out").2.2.2.1 "Foo" rfl (by decide) (by decide)
  exact h.trans (by decide)

/-- Claim C10: the format selector is matched case-insensitively: the
selected strategy (and the fatal branch) depends only on the
lower-cased value, so "PTX", "Ptx" and "ptx" all select the PTX
strategy and "CUBIN" selects the CUBIN strategy. -/
theorem claim_C10 :
    (∀ s t : String, to_lowercase s = to_lowercase t →
      select_strategy (to_lowercase s) = select_strategy (to_lowercase t)) ∧
    (∀ (env : Env) (out_dir : String),
      env.candle_cuda_module_format = some "PTX" ∨
        env.candle_cuda_module_format = some "Ptx" ∨
        env.candle_cuda_module_format = some "ptx" →
      (main_run env out_dir).strategy = some Strategy.ptx) ∧
    (∀ (env : Env) (out_dir : String),
      env.candle_cuda_module_format = some "CUBIN" →
      (main_run env out_dir).strategy = some Strategy.cubin) := by
  refine ⟨fun s t h => by rw [h], ?_, ?_⟩
  · intro env out_dir h
    rcases h with h | h | h <;>
      · unfold main_run
        rw [h, Option.getD_some]
        rfl
  · intro env out_dir h
    unfold main_run
    rw [h, Option.getD_some]
    exact build_cubin_strategy env out_dir

/-- Witness for C10: with the upper-cased selector value "PTX" the PTX
strategy is selected. -/
theorem claim_C10_witness :
    (main_run
      { candle_cuda_module_format := some "PTX", cuda_compute_cap := none,
        cuda_nvcc_flags := none, smi := none, nvcc := fun _ => none,
        fs := [], bindgen_ok := true } "out").strategy = some Strategy.ptx :=
  claim_C10.2.1 _ "out" (Or.inl rfl)

/-! ### Claims about the CUBIN path -/

/-- Unfolding lemma: the loop stops with the missing-file panic when
the head kernel's source does not exist. -/
theorem cubin_loop_cons_missing (env : Env) (out_dir compute_cap : String)
    (expected : List String) (head : String) (rest : List String)
    (h : env.fs.contains (src_path head) = false) :
    cubin_loop env out_dir compute_cap expected (head :: rest) =
      ([], some (missing_kernel_msg (src_path head) expected)) := by
  simp only [cubin_loop]
  rw [h]
  rfl

/-- Unfolding lemma: the loop stops with the compile panic when the
head kernel exists but its `nvcc` run fails. -/
theorem cubin_loop_cons_fail (env : Env) (out_dir compute_cap : String)
    (expected : List String) (head : String) (rest : List String) (msg : String)
    (h : env.fs.contains (src_path head) = true)
    (hcc : compile_cubin (env.nvcc (src_path head)) (src_path head)
      (out_dir ++ "/" ++ head ++ ".cubin") compute_cap env.cuda_nvcc_flags = some msg) :
    cubin_loop env out_dir compute_cap expected (head :: rest) =
      ([Event.nvcc (src_path head) (out_dir ++ "/" ++ head ++ ".cubin")
          (nvcc_args (src_path head) (out_dir ++ "/" ++ head ++ ".cubin") compute_cap
            env.cuda_nvcc_flags)], some msg) := by
  simp only [cubin_loop]
  rw [h, hcc]
  rfl

/-- Unfolding lemma: the loop records the head kernel's `nvcc` event
and continues when the head kernel exists and compiles. -/
theorem cubin_loop_cons_ok (env : Env) (out_dir compute_cap : String)
    (expected : List String) (head : String) (rest : List String)
    (h : env.fs.contains (src_path head) = true)
    (hcc : compile_cubin (env.nvcc (src_path head)) (src_path head)
      (out_dir ++ "/" ++ head ++ ".cubin") compute_cap env.cuda_nvcc_flags = none) :
    cubin_loop env out_dir compute_cap expected (head :: rest) =
      (Event.nvcc (src_path head) (out_dir ++ "/" ++ head ++ ".cubin")
          (nvcc_args (src_path head) (out_dir ++ "/" ++ head ++ ".cubin") compute_cap
            env.cuda_nvcc_flags) ::
        (cubin_loop env out_dir compute_cap expected rest).1,
       (cubin_loop env out_dir compute_cap expected rest).2) := by
  simp only [cubin_loop]
  rw [h, hcc]
  rfl

/-- Helper for C8: if a kernel of the iterated list has no source file,
the loop panics and never records an `nvcc` event for that kernel's
source, whatever happens to the other kernels. -/
theorem cubin_loop_missing (env : Env) (out_dir compute_cap : String)
    (expected : List String) (kernel_name : String)
    (hfs : env.fs.contains (src_path kernel_name) = false) :
    ∀ remaining : List String, kernel_name ∈ remaining →
      (cubin_loop env out_dir compute_cap expected remaining).2.isSome = true ∧
      ∀ dst args, Event.nvcc (src_path kernel_name) dst args ∉
        (cubin_loop env out_dir compute_cap expected remaining).1 := by
  intro remaining
  induction remaining with
  | nil => intro h; cases h
  | cons head rest ih =>
    intro hmem
    by_cases hhead : env.fs.contains (src_path head) = true
    · have hne : src_path head ≠ src_path kernel_name := fun he => by
        rw [he, hfs] at hhead
        cases hhead
      have hmem' : kernel_name ∈ rest := by
        rcases List.mem_cons.mp hmem with h1 | h2
        · exact absurd (h1 ▸ rfl) hne
        · exact h2
      cases hcc : compile_cubin (env.nvcc (src_path head)) (src_path head)
          (out_dir ++ "/" ++ head ++ ".cubin") compute_cap env.cuda_nvcc_flags with
      | some msg =>
        rw [cubin_loop_cons_fail env out_dir compute_cap expected head rest msg hhead hcc]
        refine ⟨rfl, fun dst args hin => ?_⟩
        have h := List.mem_singleton.mp hin
        injection h with e1 e2 e3
        exact hne e1.symm
      | none =>
        rw [cubin_loop_cons_ok env out_dir compute_cap expected head rest hhead hcc]
        obtain ⟨ih1, ih2⟩ := ih hmem'
        refine ⟨ih1, fun dst args hin => ?_⟩
        rcases List.mem_cons.mp hin with h1 | h2
        · injection h1 with e1 e2 e3
          exact hne e1.symm
        · exact ih2 dst args h2
    · have hhead' : env.fs.contains (src_path head) = false := by
        cases h : env.fs.contains (src_path head)
        · rfl
        · exact absurd h hhead
      rw [cubin_loop_cons_missing env out_dir compute_cap expected head rest hhead']
      exact ⟨rfl, fun dst args hin => List.not_mem_nil _ hin⟩

/-- Helper for C8: when every kernel before the first missing one
exists and compiles, the loop's panic message is exactly the
missing-file error for that kernel, naming its path and the full
expected catalog. -/
theorem cubin_loop_first_missing (env : Env) (out_dir compute_cap : String)
    (expected : List String) (kernel_name : String)
    (hfs : env.fs.contains (src_path kernel_name) = false) :
    ∀ (done rest : List String),
      (∀ m ∈ done, env.fs.contains (src_path m) = true ∧
        compile_cubin (env.nvcc (src_path m)) (src_path m)
          (out_dir ++ "/" ++ m ++ ".cubin") compute_cap env.cuda_nvcc_flags = none) →
      (cubin_loop env out_dir compute_cap expected (done ++ kernel_name :: rest)).2 =
        some (missing_kernel_msg (src_path kernel_name) expected) := by
  intro done
  induction done with
  | nil =>
    intro rest _
    rw [List.nil_append,
      cubin_loop_cons_missing env out_dir compute_cap expected kernel_name rest hfs]
  | cons m done' ih =>
    intro rest hdone
    have hm := hdone m (List.mem_cons_self m done')
    rw [List.cons_append,
      cubin_loop_cons_ok env out_dir compute_cap expected m (done' ++ kernel_name :: rest)
        hm.1 hm.2]
    exact ih rest (fun x hx => hdone x (List.mem_cons_of_mem m hx))

/-- Claim C8: on the CUBIN path, a kernel of the fixed catalog whose
source file is missing makes the build fail fatally before `nvcc` is
ever invoked for that kernel; when all earlier kernels exist and
compile, the error is exactly the message naming the missing path and
listing the full expected catalog; concretely, with catalog
["affine", "binary"] and only affine's source present, the loop stops
after affine's compile with an error naming "src/binary.cu" and listing
both entries. -/
theorem claim_C8 :
    (∀ (env : Env) (out_dir compute_cap kernel_name : String),
      kernel_name ∈ kernels →
      env.fs.contains (src_path kernel_name) = false →
      (cubin_loop env out_dir compute_cap kernels kernels).2.isSome = true ∧
      ∀ dst args, Event.nvcc (src_path kernel_name) dst args ∉
        (cubin_loop env out_dir compute_cap kernels kernels).1) ∧
    (∀ (env : Env) (out_dir compute_cap kernel_name : String)
      (done rest : List String),
      kernels = done ++ kernel_name :: rest →
      (∀ m ∈ done, env.fs.contains (src_path m) = true ∧
        compile_cubin (env.nvcc (src_path m)) (src_path m)
          (out_dir ++ "/" ++ m ++ ".cubin") compute_cap env.cuda_nvcc_flags = none) →
      env.fs.contains (src_path kernel_name) = false →
      (cubin_loop env out_dir compute_cap kernels kernels).2 =
        some (missing_kernel_msg (src_path kernel_name) kernels)) ∧
    cubin_loop
      { candle_cuda_module_format := some "cubin", cuda_compute_cap := some "80",
        cuda_nvcc_flags := none, smi := none, nvcc := fun _ => some (true, "", ""),
        fs := ["src/affine.cu"], bindgen_ok := true }
      "out" "80" ["affine", "binary"] ["affine", "binary"] =
      ([Event.nvcc "src/affine.cu" "out/affine.cubin"
          (nvcc_args "src/affine.cu" "out/affine.cubin" "80" none)],
        some "Kernel source file not found: src/binary.cu\nExpected kernels: [\"affine\", \"binary\"]") := by
  refine ⟨?_, ?_, ?_⟩
  · intro env out_dir compute_cap kernel_name hmem hfs
    exact cubin_loop_missing env out_dir compute_cap kernels kernel_name hfs kernels hmem
  · intro env out_dir compute_cap kernel_name done rest he hdone hfs
    rw [he]
    exact cubin_loop_first_missing env out_dir compute_cap (done ++ kernel_name :: rest)
      kernel_name hfs done rest hdone
  · decide

/-- Witness for C8: with only affine's source on disk, the full fixed
catalog fails fatally and `nvcc` is never invoked on binary's source. -/
theorem claim_C8_witness :
    (cubin_loop
      { candle_cuda_module_format := some "cubin", cuda_compute_cap := some "80",
        cuda_nvcc_flags := none, smi := none, nvcc := fun _ => some (true, "", ""),
        fs := ["src/affine.cu"], bindgen_ok := true }
      "out" "80" kernels kernels).2.isSome = true ∧
    ∀ dst args, Event.nvcc "src/binary.cu" dst args ∉
      (cubin_loop
        { candle_cuda_module_format := some "cubin", cuda_compute_cap := some "80",
          cuda_nvcc_flags := none, smi := none, nvcc := fun _ => some (true, "", ""),
          fs := ["src/affine.cu"], bindgen_ok := true }
        "out" "80" kernels kernels).1 :=
  claim_C8.1
    { candle_cuda_module_format := some "cubin", cuda_compute_cap := some "80",
      cuda_nvcc_flags := none, smi := none, nvcc := fun _ => some (true, "", ""),
      fs := ["src/affine.cu"], bindgen_ok := true }
    "out" "80" "binary" (by decide) (by decide)

/-- Claim C9: the binding generator emits exactly one constant
declaration line per kernel unit of the fixed catalog, in catalog
order, each named by the upper-cased unit name with a compile-time
embedding directive reading that unit's output file. -/
theorem claim_C9 :
    (∀ ks : List String, (generate_cubin_rs ks).length = ks.length) ∧
    generate_cubin_rs kernels =
      ["pub const AFFINE: &[u8] = include_bytes!(concat!(env!(\"OUT_DIR\"), \"/affine.cubin\"));\n",
        "pub const BINARY: &[u8] = include_bytes!(concat!(env!(\"OUT_DIR\"), \"/binary.cubin\"));\n",
        "pub const CAST: &[u8] = include_bytes!(concat!(env!(\"OUT_DIR\"), \"/cast.cubin\"));\n",
        "pub const CONV: &[u8] = include_bytes!(concat!(env!(\"OUT_DIR\"), \"/conv.cubin\"));\n",
        "pub const FILL: &[u8] = include_bytes!(concat!(env!(\"OUT_DIR\"), \"/fill.cubin\"));\n",
        "pub const INDEXING: &[u8] = include_bytes!(concat!(env!(\"OUT_DIR\"), \"/indexing.cubin\"));\n",
        "pub const QUANTIZED: &[u8] = include_bytes!(concat!(env!(\"OUT_DIR\"), \"/quantized.cubin\"));\n",
        "pub const REDUCE: &[u8] = include_bytes!(concat!(env!(\"OUT_DIR\"), \"/reduce.cubin\"));\n",
        "pub const SORT: &[u8] = include_bytes!(concat!(env!(\"OUT_DIR\"), \"/sort.cubin\"));\n",
        "pub const TERNARY: &[u8] = include_bytes!(concat!(env!(\"OUT_DIR\"), \"/ternary.cubin\"));\n",
        "pub const UNARY: &[u8] = include_bytes!(concat!(env!(\"OUT_DIR\"), \"/unary.cubin\"));\n"] :=
  ⟨fun ks => List.length_map ks cubin_rs_line, by decide⟩

end CandleKernels
